import Mathlib

/-!
Verification of the automatic plant watering controller (src/main.c).

The controller's core logic is embedded shallowly:

* Ports `P1OUT`/`P2OUT` are `Nat` bit masks (8-bit registers; `x |= m` is
  `setBits`, `x &= ~m` is `clearBits`, complement taken inside the 8-bit
  register).
* The blocking delay primitives (`delay`, `msdelay`, `hdelay`) and the
  digital-output writes are recorded as events in a trace; `hdelay h`
  performs `h` calls of `delay 3600` (main.c lines 101-108).
* The ADC (`checkMoisture`, main.c lines 139-146) is modelled by an
  environment stream `samples : Nat → Nat`; the `k`-th call to
  `checkMoisture` returns `samples k`.  The ADC control registers
  (`ADC10CTL0/1`, `ADC10AE0`) are peripheral configuration outside every
  claim and are not part of the modelled state; the `P1OUT` writes of
  `initializeADC`/`deinitializeADC` are modelled since `P1OUT` also carries
  the alarm indicator bits.
* The two infinite loops (the alarm blink of `preWaterPlant` and a
  calibration loop that never sees a wet sample) cannot be modelled as total
  functions; the calibration loop takes explicit fuel and reports `none`
  when it did not exit within the fuel, and the alarm loop's periodic trace
  is given separately (`alarmRun`).
-/

namespace AutoPlantWatering

/-- MOISTURE_MIN, main.c line 19. -/
def MOISTURE_MIN : Nat := 200

/-- MOISTURE_MAX, main.c line 20. -/
def MOISTURE_MAX : Nat := 600

/-- MAX_TRAVEL, main.c line 21. -/
def MAX_TRAVEL : Nat := 5

/-- SOAK_TIME, main.c line 22. -/
def SOAK_TIME : Nat := 3

/-- Bit masks BIT0..BIT5 of msp430.h. -/
def BIT0 : Nat := 1

/-- Bit mask BIT1. -/
def BIT1 : Nat := 2

/-- Bit mask BIT2. -/
def BIT2 : Nat := 4

/-- Bit mask BIT3 (the shared-line valve output on P2). -/
def BIT3 : Nat := 8

/-- Bit mask BIT4. -/
def BIT4 : Nat := 16

/-- Bit mask BIT5. -/
def BIT5 : Nat := 32

/-- Register write `x |= m`. -/
def setBits (x m : Nat) : Nat := x ||| m

/-- Register write `x &= ~m` on an 8-bit port register: the complement of
the mask is taken within 8 bits. -/
def clearBits (x m : Nat) : Nat := x &&& (255 ^^^ m)

/-- struct plantProperty, main.c lines 24-31. -/
structure plantProperty where
  enableADC : Nat
  selectADC : Nat
  sampleADC : Nat
  activateSolenoid : Nat
  travelTime : Nat
deriving DecidableEq, Repr

/-- The observable machine state threaded through the embedding: the two
output ports and the number of ADC conversions performed so far (the index
into the sample stream). -/
structure Sys where
  p1out : Nat
  p2out : Nat
  k : Nat
deriving DecidableEq, Repr

/-- One observable step of the controller: a write changing `P1OUT`, a write
changing `P2OUT` (the event carries the port's new value), a `delay(s)`
call (seconds), or an `msdelay(ms)` call (milliseconds). -/
inductive Event where
  | p1 (v : Nat)
  | p2 (v : Nat)
  | delay (s : Nat)
  | msdelay (ms : Nat)
deriving DecidableEq, Repr

/-- How a call to `preWaterPlant` / `plantState` ends: `ok` is a normal
return; `alarmed` means the infinite alarm blink loop of main.c lines
166-172 was entered; `stuck` means the calibration `while` loop of lines
157-163 never exited within the available fuel. -/
inductive Outcome where
  | ok
  | alarmed
  | stuck
deriving DecidableEq, Repr

/-- Result of running the calibration `while` loop: events emitted so far,
machine state reached, and `some counter` when the loop exited (with the
final value of `counter`), `none` when it did not exit within the fuel. -/
structure LoopOut where
  events : List Event
  sys : Sys
  res : Option Nat
deriving DecidableEq, Repr

/-- Result of a controller function: its event trace, the machine state,
the (possibly updated) plant record, and how the call ended. -/
structure RunResult where
  events : List Event
  sys : Sys
  plant : plantProperty
  outcome : Outcome
deriving DecidableEq, Repr

/-- `checkMoisture`, main.c lines 139-146: one blocking ADC conversion,
returning the next value of the sample stream. -/
def checkMoisture (samples : Nat → Nat) (s : Sys) : Nat × Sys :=
  (samples s.k, { s with k := s.k + 1 })

/-- Events of `hdelay(hours)`, main.c lines 101-108: `hours` calls of
`delay(3600)`. -/
def hdelayEvents (hours : Nat) : List Event :=
  List.replicate hours (Event.delay 3600)

/-- The calibration `while` loop of `preWaterPlant`, main.c lines 157-163:
while `moisture < MOISTURE_MAX || counter < MAX_TRAVEL`, set the shared
valve (`P2OUT |= BIT3`), wait one tick, re-sample, increment `counter`.
`fuel` bounds the number of iterations the model unrolls. -/
def calibLoop (samples : Nat → Nat) : Nat → Nat → Nat → Sys → LoopOut
  | 0, _, _, s => ⟨[], s, none⟩
  | fuel + 1, moisture, counter, s =>
    if moisture < MOISTURE_MAX ∨ counter < MAX_TRAVEL then
      let s1 : Sys := { s with p2out := setBits s.p2out BIT3 }
      let (m2, s2) := checkMoisture samples s1
      let rest := calibLoop samples fuel m2 (counter + 1) s2
      ⟨Event.p2 s1.p2out :: Event.delay 1 :: rest.events, rest.sys, rest.res⟩
    else ⟨[], s, some counter⟩

/-- `preWaterPlant`, main.c lines 151-178: sample, open the station valve,
wait one tick, run the calibration loop; if `counter >= MAX_TRAVEL` enter
the alarm blink loop (outcome `alarmed`; its periodic trace is `alarmRun`),
otherwise close the shared valve, wait 2 ticks, close the station valve and
store `counter` into `travelTime`. -/
def preWaterPlant (pl : plantProperty) (samples : Nat → Nat) (fuel : Nat) (s : Sys) :
    RunResult :=
  let mo := checkMoisture samples s
  let sB : Sys := { mo.2 with p2out := setBits mo.2.p2out pl.activateSolenoid }
  let out := calibLoop samples fuel mo.1 0 sB
  let evs := Event.p2 sB.p2out :: Event.delay 1 :: out.events
  match out.res with
  | none => ⟨evs, out.sys, pl, Outcome.stuck⟩
  | some c =>
    if MAX_TRAVEL ≤ c then
      ⟨evs, out.sys, pl, Outcome.alarmed⟩
    else
      let sC : Sys := { out.sys with p2out := clearBits out.sys.p2out BIT3 }
      let sD : Sys := { sC with p2out := clearBits sC.p2out pl.activateSolenoid }
      ⟨evs ++ [Event.p2 sC.p2out, Event.delay 2, Event.p2 sD.p2out], sD,
        { pl with travelTime := c }, Outcome.ok⟩

/-- The dose duration computed by `waterPlant`, main.c line 185:
`travelTime + SOAK_TIME`. -/
def waterTime (pl : plantProperty) : Nat := pl.travelTime + SOAK_TIME

/-- `waterPlant`, main.c lines 183-193: open the station valve, wait one
tick, open the shared valve, wait `waterTime` ticks, close the shared
valve, wait 2 ticks, close the station valve. -/
def waterPlant (pl : plantProperty) (s : Sys) : List Event × Sys :=
  let s1 : Sys := { s with p2out := setBits s.p2out pl.activateSolenoid }
  let s2 : Sys := { s1 with p2out := setBits s1.p2out BIT3 }
  let s3 : Sys := { s2 with p2out := clearBits s2.p2out BIT3 }
  let s4 : Sys := { s3 with p2out := clearBits s3.p2out pl.activateSolenoid }
  ([Event.p2 s1.p2out, Event.delay 1, Event.p2 s2.p2out, Event.delay (waterTime pl),
    Event.p2 s3.p2out, Event.delay 2, Event.p2 s4.p2out], s4)

/-- `plantState`, main.c lines 198-210: power the sensor up
(`initializeADC`: `P1OUT |= enableADC`, settle 500 ms), sample; when
`moisture < MOISTURE_MIN` run `preWaterPlant`, wait 60 ticks and run
`waterPlant`; in every case run one further `waterPlant` and power the
sensor down (`deinitializeADC`: `P1OUT &= ~enableADC`).  When
`preWaterPlant` does not return (alarm or unexhausted loop), the trace ends
with its events. -/
def plantState (pl : plantProperty) (samples : Nat → Nat) (fuel : Nat) (s : Sys) :
    RunResult :=
  let sA : Sys := { s with p1out := setBits s.p1out pl.enableADC }
  let evInit : List Event := [Event.p1 sA.p1out, Event.msdelay 500]
  let mo := checkMoisture samples sA
  if mo.1 < MOISTURE_MIN then
    let r := preWaterPlant pl samples fuel mo.2
    match r.outcome with
    | Outcome.ok =>
      let d1 := waterPlant r.plant r.sys
      let d2 := waterPlant r.plant d1.2
      let sE : Sys := { d2.2 with p1out := clearBits d2.2.p1out pl.enableADC }
      ⟨evInit ++ r.events ++ [Event.delay 60] ++ d1.1 ++ d2.1 ++ [Event.p1 sE.p1out],
        sE, r.plant, Outcome.ok⟩
    | o => ⟨evInit ++ r.events, r.sys, r.plant, o⟩
  else
    let d2 := waterPlant pl mo.2
    let sE : Sys := { d2.2 with p1out := clearBits d2.2.p1out pl.enableADC }
    ⟨evInit ++ d2.1 ++ [Event.p1 sE.p1out], sE, pl, Outcome.ok⟩

/-- One period of the alarm blink loop, main.c lines 166-172: all three
indicator bits on (`P1OUT |= BIT0+BIT2+BIT4`), one tick, off, one tick. -/
def alarmPeriod (p1 : Nat) : List Event :=
  [Event.p1 (setBits p1 (BIT0 + BIT2 + BIT4)), Event.delay 1,
   Event.p1 (clearBits p1 (BIT0 + BIT2 + BIT4)), Event.delay 1]

/-- The first `n` periods of the (infinite) alarm blink loop started with
`P1OUT = p1`. -/
def alarmRun (p1 : Nat) : Nat → List Event
  | 0 => []
  | n + 1 => alarmPeriod p1 ++ alarmRun (clearBits p1 (BIT0 + BIT2 + BIT4)) n

/-- plant1, main.c lines 218-222 (INCH_1 selects ADC channel 1). -/
def plant1 : plantProperty :=
  { enableADC := BIT0, selectADC := 1, sampleADC := BIT1,
    activateSolenoid := BIT0, travelTime := 0 }

/-- plant2, main.c lines 225-229 (INCH_3 selects ADC channel 3). -/
def plant2 : plantProperty :=
  { enableADC := BIT2, selectADC := 3, sampleADC := BIT3,
    activateSolenoid := BIT1, travelTime := 0 }

/-- plant3, main.c lines 232-236 (INCH_5 selects ADC channel 5). -/
def plant3 : plantProperty :=
  { enableADC := BIT4, selectADC := 5, sampleADC := BIT5,
    activateSolenoid := BIT2, travelTime := 0 }

/-- The state carried across iterations of the outer `while(1)` loop of
`main`, main.c lines 240-246: the three plant records and the machine
state. -/
structure MainState where
  pl1 : plantProperty
  pl2 : plantProperty
  pl3 : plantProperty
  sys : Sys
deriving DecidableEq, Repr

/-- Result of one iteration of the outer loop. -/
structure CycleOut where
  events : List Event
  state : MainState
  outcome : Outcome
deriving DecidableEq, Repr

/-- One iteration of the outer `while(1)` loop, main.c lines 240-246:
`plantState` for plants 1, 2, 3 in that order, then `hdelay(48)`.  A
non-returning `plantState` (alarm / stuck calibration) cuts the iteration
short. -/
def cycleStep (samples : Nat → Nat) (fuel : Nat) (st : MainState) : CycleOut :=
  let r1 := plantState st.pl1 samples fuel st.sys
  match r1.outcome with
  | Outcome.ok =>
    let r2 := plantState st.pl2 samples fuel r1.sys
    match r2.outcome with
    | Outcome.ok =>
      let r3 := plantState st.pl3 samples fuel r2.sys
      match r3.outcome with
      | Outcome.ok =>
        ⟨r1.events ++ r2.events ++ r3.events ++ hdelayEvents 48,
          ⟨r1.plant, r2.plant, r3.plant, r3.sys⟩, Outcome.ok⟩
      | o => ⟨r1.events ++ r2.events ++ r3.events, ⟨r1.plant, r2.plant, r3.plant, r3.sys⟩, o⟩
    | o => ⟨r1.events ++ r2.events, ⟨r1.plant, r2.plant, st.pl3, r2.sys⟩, o⟩
  | o => ⟨r1.events, ⟨r1.plant, st.pl2, st.pl3, r1.sys⟩, o⟩

/-- The state at entry to `main`'s loop: `initialize` (main.c lines 54-58)
clears all output bits of both ports, and the three `travelTime` fields are
initialised to 0; no ADC conversion has happened yet. -/
def initMainState : MainState :=
  ⟨plant1, plant2, plant3, ⟨0, 0, 0⟩⟩

/-- The `MainState` before the `n`-th iteration of the outer loop. -/
def mainState (samples : Nat → Nat) (fuel : Nat) : Nat → MainState
  | 0 => initMainState
  | n + 1 => (cycleStep samples fuel (mainState samples fuel n)).state

/-- The event trace of the `n`-th iteration of the outer loop. -/
def iterTrace (samples : Nat → Nat) (fuel : Nat) (n : Nat) : List Event :=
  (cycleStep samples fuel (mainState samples fuel n)).events

/-- The successive values written to `P2OUT` by a trace. -/
def p2Writes (evs : List Event) : List Nat :=
  evs.filterMap fun e =>
    match e with
    | Event.p2 v => some v
    | _ => none

/-- Every value `P2OUT` holds over a trace started at `init` (the port only
changes at `Event.p2` writes). -/
def p2States (init : Nat) (evs : List Event) : List Nat :=
  init :: p2Writes evs

/-- The value of `P2OUT` after a trace started at `init`. -/
def p2After (init : Nat) (evs : List Event) : Nat :=
  (p2States init evs).getLast (by simp [p2States])

/-- How many of the four valve outputs (station valves P2.0-P2.2 and the
shared-line valve P2.3) are energized in a `P2OUT` value. -/
def openValveCount (v : Nat) : Nat :=
  (if v.testBit 0 then 1 else 0) + (if v.testBit 1 then 1 else 0) +
    (if v.testBit 2 then 1 else 0) + (if v.testBit 3 then 1 else 0)

/-- How many of the three per-station valves (P2.0-P2.2) are energized in a
`P2OUT` value. -/
def stationValveCount (v : Nat) : Nat :=
  (if v.testBit 0 then 1 else 0) + (if v.testBit 1 then 1 else 0) +
    (if v.testBit 2 then 1 else 0)

/-- The moisture value the calibration loop's condition sees at counter
value `i`, for a loop entered with initial sample `m0` and `k0` conversions
already performed: `m0` at `i = 0`, the `i`-th in-loop re-sample
afterwards. -/
def mAt (samples : Nat → Nat) (m0 k0 : Nat) : Nat → Nat
  | 0 => m0
  | i + 1 => samples (k0 + i)

/-- A sample stream that never reaches the wet threshold. -/
def dryForever : Nat → Nat := fun _ => 150

/-- A sample stream for the spec's scenario A: dryness 150 until the
in-loop sample at step 3 of a calibration run entered via `plantState`
(which consumes samples 0 and 1 first), wet (600) from then on. -/
def wetAtStep3 : Nat → Nat := fun k => if 4 ≤ k then 600 else 150

/-- A sample stream wet from the 5th conversion on: dryness 150 before. -/
def wetFromStep5 : Nat → Nat := fun k => if 5 ≤ k then 600 else 150

/-- The event trace of `plantState` for a station whose sample is not
below `MOISTURE_MIN` (the wet path): sensor power-up, one `waterPlant`
dose, sensor power-down.  Stated for entry state `P1OUT = P2OUT = 0`; the
port values are those reached for each of the three concrete plants. -/
def wetEvents (pl : plantProperty) : List Event :=
  [Event.p1 pl.enableADC, Event.msdelay 500,
   Event.p2 pl.activateSolenoid, Event.delay 1,
   Event.p2 (setBits pl.activateSolenoid BIT3), Event.delay (waterTime pl),
   Event.p2 pl.activateSolenoid, Event.delay 2, Event.p2 0, Event.p1 0]

/-! ### Helper lemmas -/

lemma lor_self_eq (m : Nat) : m ||| m = m := by
  refine Nat.eq_of_testBit_eq (fun i => ?_)
  simp [Nat.testBit_lor]

lemma setBits_setBits (x m : Nat) : setBits (setBits x m) m = setBits x m := by
  simp only [setBits, Nat.lor_assoc, lor_self_eq]

lemma mAt_shift (samples : Nat → Nat) (m k0 : Nat) :
    ∀ j, mAt samples (samples k0) (k0 + 1) j = mAt samples m k0 (j + 1) := by
  intro j
  cases j with
  | zero => simp [mAt]
  | succ i =>
      show samples (k0 + 1 + i) = samples (k0 + (i + 1))
      exact congrArg samples (by omega)

/-- Exit characterization of the calibration loop (main.c lines 157-163): it
returns `some c` exactly when `c` is the first counter value at which the C
continuation condition `moisture < MOISTURE_MAX || counter < MAX_TRAVEL`
fails (both `MOISTURE_MAX ≤ moisture` and `MAX_TRAVEL ≤ c` hold there, and
at every earlier counter value one of the disjuncts held), within the
available fuel. -/
lemma calibLoop_some_iff (samples : Nat → Nat) :
    ∀ fuel m counter p1v p2v k0 c,
      (calibLoop samples fuel m counter ⟨p1v, p2v, k0⟩).res = some c ↔
        (counter ≤ c ∧ c - counter < fuel ∧ MAX_TRAVEL ≤ c ∧
         MOISTURE_MAX ≤ mAt samples m k0 (c - counter) ∧
         ∀ j, counter + j < c →
           (mAt samples m k0 j < MOISTURE_MAX ∨ counter + j < MAX_TRAVEL)) := by
  intro fuel
  induction fuel with
  | zero =>
      intro m counter p1v p2v k0 c
      constructor
      · intro h
        simp [calibLoop] at h
      · rintro ⟨h1, h2, -⟩
        omega
  | succ fuel ih =>
      intro m counter p1v p2v k0 c
      by_cases hcond : m < MOISTURE_MAX ∨ counter < MAX_TRAVEL
      · have hstep : (calibLoop samples (fuel + 1) m counter ⟨p1v, p2v, k0⟩).res =
            (calibLoop samples fuel (samples k0) (counter + 1)
              ⟨p1v, setBits p2v BIT3, k0 + 1⟩).res := by
          simp [calibLoop, hcond, checkMoisture]
        rw [hstep, ih]
        constructor
        · rintro ⟨hc1, hc2, hc3, hc4, hc5⟩
          refine ⟨by omega, by omega, hc3, ?_, ?_⟩
          · rw [mAt_shift samples m k0] at hc4
            have he : c - (counter + 1) + 1 = c - counter := by omega
            rwa [he] at hc4
          · intro j hj
            rcases Nat.eq_zero_or_pos j with rfl | hpos
            · simpa [mAt] using hcond
            · obtain ⟨i, rfl⟩ : ∃ i, j = i + 1 := ⟨j - 1, by omega⟩
              have hi := hc5 i (by omega)
              rw [mAt_shift samples m k0] at hi
              rcases hi with hx | hx
              · exact Or.inl hx
              · exact Or.inr (by omega)
        · rintro ⟨hc1, hc2, hc3, hc4, hc5⟩
          have hne : counter ≠ c := by
            rintro rfl
            rcases hcond with hx | hx
            · simp [mAt] at hc4
              omega
            · omega
          refine ⟨by omega, by omega, hc3, ?_, ?_⟩
          · rw [mAt_shift samples m k0]
            have he : c - (counter + 1) + 1 = c - counter := by omega
            rw [he]
            exact hc4
          · intro j hj
            have hi := hc5 (j + 1) (by omega)
            rw [← mAt_shift samples m k0] at hi
            rcases hi with hx | hx
            · exact Or.inl hx
            · exact Or.inr (by omega)
      · have hstep : (calibLoop samples (fuel + 1) m counter ⟨p1v, p2v, k0⟩).res =
            some counter := by
          simp [calibLoop, hcond]
        rw [hstep]
        push_neg at hcond
        constructor
        · intro h
          have hc : counter = c := by
            simpa using h
          subst hc
          refine ⟨le_refl _, by omega, hcond.2, ?_, ?_⟩
          · simpa [mAt] using hcond.1
          · intro j hj
            omega
        · rintro ⟨hc1, hc2, hc3, hc4, hc5⟩
          have hc : counter = c := by
            by_contra hne
            have hi := hc5 0 (by omega)
            simp [mAt] at hi
            rcases hi with hx | hx
            · omega
            · omega
          rw [hc]

lemma calibLoop_some_travel (samples : Nat → Nat) (fuel m counter c : Nat) (s : Sys)
    (h : (calibLoop samples fuel m counter s).res = some c) : MAX_TRAVEL ≤ c := by
  obtain ⟨p1v, p2v, k0⟩ := s
  exact ((calibLoop_some_iff samples fuel m counter p1v p2v k0 c).1 h).2.2.1

lemma calibLoop_some_le (samples : Nat → Nat) (fuel m counter c : Nat) (s : Sys)
    (h : (calibLoop samples fuel m counter s).res = some c) : counter ≤ c := by
  obtain ⟨p1v, p2v, k0⟩ := s
  exact ((calibLoop_some_iff samples fuel m counter p1v p2v k0 c).1 h).1

/-- When the calibration loop exits having iterated at least once, the
shared valve bit is set in the final machine state (each iteration performs
`P2OUT |= BIT3`). -/
lemma calibLoop_some_p2 (samples : Nat → Nat) :
    ∀ fuel m counter c (s : Sys),
      (calibLoop samples fuel m counter s).res = some c →
      (calibLoop samples fuel m counter s).sys.p2out =
        (if c = counter then s.p2out else setBits s.p2out BIT3) := by
  intro fuel
  induction fuel with
  | zero =>
      intro m counter c s h
      simp [calibLoop] at h
  | succ fuel ih =>
      intro m counter c s h
      by_cases hcond : m < MOISTURE_MAX ∨ counter < MAX_TRAVEL
      · have hstep : calibLoop samples (fuel + 1) m counter s =
            ⟨Event.p2 (setBits s.p2out BIT3) :: Event.delay 1 ::
              (calibLoop samples fuel (samples s.k) (counter + 1)
                ⟨s.p1out, setBits s.p2out BIT3, s.k + 1⟩).events,
             (calibLoop samples fuel (samples s.k) (counter + 1)
               ⟨s.p1out, setBits s.p2out BIT3, s.k + 1⟩).sys,
             (calibLoop samples fuel (samples s.k) (counter + 1)
               ⟨s.p1out, setBits s.p2out BIT3, s.k + 1⟩).res⟩ := by
          simp [calibLoop, hcond, checkMoisture]
        rw [hstep] at h ⊢
        have hge : counter + 1 ≤ c :=
          calibLoop_some_le samples fuel (samples s.k) (counter + 1) c _ h
        have hrec := ih (samples s.k) (counter + 1) c ⟨s.p1out, setBits s.p2out BIT3, s.k + 1⟩ h
        rw [if_neg (by omega)]
        rw [hrec]
        by_cases hc : c = counter + 1
        · rw [if_pos hc]
        · rw [if_neg hc, setBits_setBits]
      · have hstep : calibLoop samples (fuel + 1) m counter s = ⟨[], s, some counter⟩ := by
          simp [calibLoop, hcond]
        rw [hstep] at h ⊢
        have hc : counter = c := by
          simpa using h
        rw [if_pos hc.symm]

/-- The calibration loop never exits when fed a stream that never reaches
the wet threshold. -/
lemma calibLoop_dryForever (fuel m counter : Nat) (s : Sys) (hm : m < MOISTURE_MAX) :
    (calibLoop dryForever fuel m counter s).res = none := by
  obtain ⟨p1v, p2v, k0⟩ := s
  cases hres : (calibLoop dryForever fuel m counter ⟨p1v, p2v, k0⟩).res with
  | none => rfl
  | some c =>
      exfalso
      have hc := ((calibLoop_some_iff dryForever fuel m counter p1v p2v k0 c).1 hres).2.2.2.1
      have hval : mAt dryForever m k0 (c - counter) = m ∨
          mAt dryForever m k0 (c - counter) = 150 := by
        cases hcc : c - counter with
        | zero => exact Or.inl (by simp [mAt])
        | succ i => exact Or.inr (by simp [mAt, dryForever])
      rcases hval with hv | hv <;> rw [hv] at hc
      · omega
      · simp [MOISTURE_MAX] at hc

/-- `preWaterPlant` never returns normally: every exit of its calibration
loop has `counter >= MAX_TRAVEL`, so the alarm branch (main.c lines
164-173) is taken whenever the loop exits, and lines 174-177 (valve
close-down and the `travelTime` store) are unreachable. -/
lemma preWaterPlant_not_ok (pl : plantProperty) (samples : Nat → Nat) (fuel : Nat) (s : Sys) :
    ((preWaterPlant pl samples fuel s).outcome = Outcome.alarmed ∨
      (preWaterPlant pl samples fuel s).outcome = Outcome.stuck) ∧
    (preWaterPlant pl samples fuel s).plant = pl := by
  obtain ⟨p1v, p2v, k0⟩ := s
  simp only [preWaterPlant, checkMoisture]
  cases hres : (calibLoop samples fuel (samples k0) 0
      ⟨p1v, setBits p2v pl.activateSolenoid, k0 + 1⟩).res with
  | none => simp [hres]
  | some c =>
      have h5 := calibLoop_some_travel samples fuel (samples k0) 0 c _ hres
      simp [hres, h5]

/-- At entry to the alarm blink loop, the active station's valve bit and
the shared valve bit have been ORed into `P2OUT` and nothing has cleared
them. -/
lemma preWaterPlant_alarmed_p2 (pl : plantProperty) (samples : Nat → Nat) (fuel : Nat)
    (s : Sys) (h : (preWaterPlant pl samples fuel s).outcome = Outcome.alarmed) :
    (preWaterPlant pl samples fuel s).sys.p2out =
      setBits (setBits s.p2out pl.activateSolenoid) BIT3 := by
  obtain ⟨p1v, p2v, k0⟩ := s
  simp only [preWaterPlant, checkMoisture] at h ⊢
  cases hres : (calibLoop samples fuel (samples k0) 0
      ⟨p1v, setBits p2v pl.activateSolenoid, k0 + 1⟩).res with
  | none => simp [hres] at h
  | some c =>
      have h5 := calibLoop_some_travel samples fuel (samples k0) 0 c _ hres
      have h5' : 5 ≤ c := h5
      have hp2 := calibLoop_some_p2 samples fuel (samples k0) 0 c
        ⟨p1v, setBits p2v pl.activateSolenoid, k0 + 1⟩ hres
      rw [if_neg (by omega : ¬ c = 0)] at hp2
      simp [hres, h5, hp2]

/-- The alarm blink loop writes only `P1OUT`. -/
lemma alarmRun_no_p2 (p1 : Nat) : ∀ n, p2Writes (alarmRun p1 n) = [] := by
  intro n
  induction n generalizing p1 with
  | zero => simp [alarmRun, p2Writes]
  | succ n ih =>
      simp [alarmRun, p2Writes, alarmPeriod] at ih ⊢
      exact ih _

/-- `plantState` hands back the plant record it was given: the only write
to `travelTime` in the program (main.c line 177) is unreachable. -/
lemma plantState_plant (pl : plantProperty) (samples : Nat → Nat) (fuel : Nat) (s : Sys) :
    (plantState pl samples fuel s).plant = pl := by
  obtain ⟨p1v, p2v, k0⟩ := s
  simp only [plantState, checkMoisture]
  by_cases hm : samples k0 < MOISTURE_MIN
  · rw [if_pos hm]
    have hpre := preWaterPlant_not_ok pl samples fuel ⟨setBits p1v pl.enableADC, p2v, k0 + 1⟩
    rcases hpre.1 with h | h <;> simp [h, hpre.2]
  · rw [if_neg hm]

/-- The wet path of `plantState` (sample not below `MOISTURE_MIN`): sensor
power-up, exactly one `waterPlant` dose, sensor power-down, for each of the
three configured plants, entered with both ports cleared. -/
lemma plantState_wet (pl : plantProperty)
    (hpl : pl = plant1 ∨ pl = plant2 ∨ pl = plant3)
    (samples : Nat → Nat) (fuel k : Nat) (h : MOISTURE_MIN ≤ samples k) :
    plantState pl samples fuel ⟨0, 0, k⟩ = ⟨wetEvents pl, ⟨0, 0, k + 1⟩, pl, Outcome.ok⟩ := by
  have hnot : ¬ samples k < MOISTURE_MIN := Nat.not_lt.mpr h
  rcases hpl with rfl | rfl | rfl <;>
    simp [plantState, checkMoisture, waterPlant, wetEvents, waterTime, setBits, clearBits,
      plant1, plant2, plant3, BIT0, BIT1, BIT2, BIT3, BIT4, BIT5, SOAK_TIME, hnot] <;>
    decide

/-- On a dry initial sample with a stream that never reaches the wet
threshold, `plantState` gets stuck inside the calibration loop. -/
lemma plantState_dryForever_stuck (pl : plantProperty) (fuel : Nat) (s : Sys) :
    (plantState pl dryForever fuel s).outcome = Outcome.stuck := by
  obtain ⟨p1v, p2v, k0⟩ := s
  have hdry : dryForever k0 < MOISTURE_MIN := by
    simp [dryForever, MOISTURE_MIN]
  have hpre : (preWaterPlant pl dryForever fuel ⟨setBits p1v pl.enableADC, p2v, k0 + 1⟩).outcome =
      Outcome.stuck := by
    simp only [preWaterPlant, checkMoisture]
    have hnone := calibLoop_dryForever fuel (dryForever (k0 + 1)) 0
      ⟨setBits p1v pl.enableADC, setBits p2v pl.activateSolenoid, k0 + 2⟩
      (by simp [dryForever, MOISTURE_MAX])
    simp [hnone]
  simp only [plantState, checkMoisture]
  rw [if_pos hdry]
  simp [hpre]

/-- Under a stream whose samples never fall below `MOISTURE_MIN`, the state
at the head of each outer-loop iteration is unchanged except for the three
ADC conversions consumed per cycle. -/
lemma mainState_wet (samples : Nat → Nat) (fuel : Nat)
    (h : ∀ j, MOISTURE_MIN ≤ samples j) :
    ∀ n, mainState samples fuel n = ⟨plant1, plant2, plant3, ⟨0, 0, 3 * n⟩⟩ := by
  intro n
  induction n with
  | zero => rfl
  | succ n ih =>
      have h1 := plantState_wet plant1 (Or.inl rfl) samples fuel (3 * n) (h _)
      have h2 := plantState_wet plant2 (Or.inr (Or.inl rfl)) samples fuel (3 * n + 1) (h _)
      have h3 := plantState_wet plant3 (Or.inr (Or.inr rfl)) samples fuel (3 * n + 2) (h _)
      show (cycleStep samples fuel (mainState samples fuel n)).state = _
      rw [ih]
      simp only [cycleStep, h1, h2, h3]
      have he : 3 * n + 1 + 1 + 1 = 3 * (n + 1) := by omega
      simp [he]

/-- Under an all-wet stream, every iteration of the outer loop produces the
same trace: the three wet station traces in order, then the 48 hour
sleep. -/
lemma iterTrace_wet (samples : Nat → Nat) (fuel : Nat)
    (h : ∀ j, MOISTURE_MIN ≤ samples j) (n : Nat) :
    iterTrace samples fuel n =
      wetEvents plant1 ++ wetEvents plant2 ++ wetEvents plant3 ++ hdelayEvents 48 := by
  have h1 := plantState_wet plant1 (Or.inl rfl) samples fuel (3 * n) (h _)
  have h2 := plantState_wet plant2 (Or.inr (Or.inl rfl)) samples fuel (3 * n + 1) (h _)
  have h3 := plantState_wet plant3 (Or.inr (Or.inr rfl)) samples fuel (3 * n + 2) (h _)
  show (cycleStep samples fuel (mainState samples fuel n)).events = _
  rw [mainState_wet samples fuel h n]
  simp [cycleStep, h1, h2, h3]

lemma setBits_absorb (x a b : Nat) : setBits (setBits (setBits x a) b) a = setBits (setBits x a) b := by
  refine Nat.eq_of_testBit_eq (fun i => ?_)
  simp only [setBits, Nat.testBit_lor]
  cases Nat.testBit x i <;> cases Nat.testBit a i <;> cases Nat.testBit b i <;> rfl

lemma cycleStep_state_plants (samples : Nat → Nat) (fuel : Nat) (st : MainState) :
    (cycleStep samples fuel st).state.pl1 = st.pl1 ∧
    (cycleStep samples fuel st).state.pl2 = st.pl2 ∧
    (cycleStep samples fuel st).state.pl3 = st.pl3 := by
  simp only [cycleStep]
  repeat' split
  all_goals simp [plantState_plant]

lemma mainState_plants (samples : Nat → Nat) (fuel : Nat) :
    ∀ n, (mainState samples fuel n).pl1 = plant1 ∧
      (mainState samples fuel n).pl2 = plant2 ∧
      (mainState samples fuel n).pl3 = plant3 := by
  intro n
  induction n with
  | zero => exact ⟨rfl, rfl, rfl⟩
  | succ n ih =>
      have hc := cycleStep_state_plants samples fuel (mainState samples fuel n)
      exact ⟨hc.1.trans ih.1, hc.2.1.trans ih.2.1, hc.2.2.trans ih.2.2⟩

/-! ### The claims -/

/-- Claim C1 (confirmed): the calibration loop of `preWaterPlant` continues
exactly while `dryness < MOISTURE_MAX` OR `counter < MAX_TRAVEL`.  For
every sample stream, fuel and start state, the loop exits with final
counter `c` if and only if both `MOISTURE_MAX ≤` the sample seen at `c`
and `MAX_TRAVEL ≤ c` hold there while at every earlier counter value at
least one of the two continuation disjuncts held (and the fuel allowed
reaching `c`). -/
theorem C1_loop_continuation_iff (samples : Nat → Nat) (fuel m0 p1v p2v k0 c : Nat) :
    (calibLoop samples fuel m0 0 ⟨p1v, p2v, k0⟩).res = some c ↔
      (c < fuel ∧ MAX_TRAVEL ≤ c ∧ MOISTURE_MAX ≤ mAt samples m0 k0 c ∧
       ∀ i < c, mAt samples m0 k0 i < MOISTURE_MAX ∨ i < MAX_TRAVEL) := by
  have hiff := calibLoop_some_iff samples fuel m0 0 p1v p2v k0 c
  simp only [Nat.zero_le, true_and, Nat.sub_zero, Nat.zero_add] at hiff
  rw [hiff]

/-- Claim C2 (code bug): on the spec's scenario A input — initial sampled
dryness 150, wet threshold first reached at calibration step 3 — the code
does not store `travelTime = 3` and issues no 6-tick full dose: because
the loop's continuation condition is an inclusive OR, the loop keeps
running until `counter = 5` and the alarm branch is entered;
`travelTime` keeps its initial value 0 and no dose delay ever occurs. -/
theorem C2_scenario_a_code_bug :
    (plantState plant1 wetAtStep3 10 ⟨0, 0, 0⟩).outcome = Outcome.alarmed ∧
    (plantState plant1 wetAtStep3 10 ⟨0, 0, 0⟩).plant.travelTime = 0 ∧
    ¬ (plantState plant1 wetAtStep3 10 ⟨0, 0, 0⟩).plant.travelTime = 3 ∧
    (plantState plant1 wetAtStep3 10 ⟨0, 0, 0⟩).events.count (Event.delay 60) = 0 ∧
    (plantState plant1 wetAtStep3 10 ⟨0, 0, 0⟩).events.count (Event.delay 6) = 0 ∧
    (plantState plant1 wetAtStep3 10 ⟨0, 0, 0⟩).events.count (Event.delay 3) = 0 := by
  decide

/-- Claim C3 (code bug): for a station whose dryness never reaches the wet
threshold, the code does not transition to the Alarm Handler: the
calibration loop's OR-condition keeps it spinning forever (outcome
`stuck` at every fuel bound), the station valve and shared valve held
open, and no dose is issued; the claimed alarm entry happens only when
the dryness does eventually reach the wet threshold at some step ≥ 5. -/
theorem C3_scenario_b_code_bug (fuel : Nat) :
    (preWaterPlant plant1 dryForever fuel ⟨0, 0, 0⟩).outcome = Outcome.stuck ∧
    (preWaterPlant plant1 dryForever fuel ⟨0, 0, 0⟩).plant.travelTime = 0 := by
  constructor
  · simp only [preWaterPlant, checkMoisture]
    have hnone := calibLoop_dryForever fuel (dryForever 0) 0
      ⟨0, setBits 0 plant1.activateSolenoid, 0 + 1⟩
      (by simp [dryForever, MOISTURE_MAX])
    simp [hnone]
  · exact congrArg plantProperty.travelTime
      (preWaterPlant_not_ok plant1 dryForever fuel ⟨0, 0, 0⟩).2

/-- Claim C5 (code bug): on a dry initial sample, `plantState` does invoke
`preWaterPlant` first, but `preWaterPlant` never returns (here: dryness
never reaches the wet threshold, so the loop spins forever at every fuel
bound), hence the 60-tick wait, the full dose and the maintenance dose
never execute.  The concrete conjuncts check that a deep run's trace
contains no 60-tick wait and no dose delay. -/
theorem C5_dry_path_code_bug (fuel : Nat) :
    (plantState plant1 dryForever fuel ⟨0, 0, 0⟩).outcome = Outcome.stuck ∧
    (plantState plant1 dryForever 30 ⟨0, 0, 0⟩).events.count (Event.delay 60) = 0 ∧
    (plantState plant1 dryForever 30 ⟨0, 0, 0⟩).events.count (Event.delay 3) = 0 ∧
    (plantState plant1 dryForever 30 ⟨0, 0, 0⟩).events.count (Event.delay 6) = 0 := by
  refine ⟨plantState_dryForever_stuck plant1 fuel ⟨0, 0, 0⟩, ?_, ?_, ?_⟩ <;> decide

/-- Claim C9 (confirmed): every exit of the calibration loop has
`counter ≥ MAX_TRAVEL`, so `preWaterPlant` never reaches its post-loop
code: it either alarms or never exits the loop, and hands back the plant
record unmodified; consequently every station record in every iteration of
the outer loop still carries `travelTime = 0`. -/
theorem C9_travelTime_always_zero :
    (∀ samples fuel m counter (s : Sys),
       MAX_TRAVEL ≤ ((calibLoop samples fuel m counter s).res.getD MAX_TRAVEL)) ∧
    (∀ pl samples fuel (s : Sys),
       ((preWaterPlant pl samples fuel s).outcome = Outcome.alarmed ∨
         (preWaterPlant pl samples fuel s).outcome = Outcome.stuck) ∧
       (preWaterPlant pl samples fuel s).plant = pl) ∧
    (∀ pl samples fuel (s : Sys), (plantState pl samples fuel s).plant = pl) ∧
    (∀ samples fuel n,
       (mainState samples fuel n).pl1.travelTime = 0 ∧
       (mainState samples fuel n).pl2.travelTime = 0 ∧
       (mainState samples fuel n).pl3.travelTime = 0) := by
  refine ⟨?_, ?_, ?_, ?_⟩
  · intro samples fuel m counter s
    cases hres : (calibLoop samples fuel m counter s).res with
    | none => simp
    | some c => simpa using calibLoop_some_travel samples fuel m counter c s hres
  · intro pl samples fuel s
    exact preWaterPlant_not_ok pl samples fuel s
  · intro pl samples fuel s
    exact plantState_plant pl samples fuel s
  · intro samples fuel n
    have h := mainState_plants samples fuel n
    exact ⟨by rw [h.1]; rfl, by rw [h.2.1]; rfl, by rw [h.2.2]; rfl⟩

/-- Claim C10 (confirmed): whenever `preWaterPlant` enters the alarm, the
final `P2OUT` is the entry value with the station's solenoid bit and the
shared valve bit ORed in; both bits are set (ORing either again is a
no-op), and the alarm loop's trace contains no `P2OUT` write at all (for
any number of blink periods), so both valves stay energized forever. -/
theorem C10_alarm_valves_stay_open (pl : plantProperty) (samples : Nat → Nat)
    (fuel n : Nat) (s : Sys)
    (h : (preWaterPlant pl samples fuel s).outcome = Outcome.alarmed) :
    (preWaterPlant pl samples fuel s).sys.p2out =
      setBits (setBits s.p2out pl.activateSolenoid) BIT3 ∧
    setBits (preWaterPlant pl samples fuel s).sys.p2out pl.activateSolenoid =
      (preWaterPlant pl samples fuel s).sys.p2out ∧
    setBits (preWaterPlant pl samples fuel s).sys.p2out BIT3 =
      (preWaterPlant pl samples fuel s).sys.p2out ∧
    p2Writes (alarmRun (preWaterPlant pl samples fuel s).sys.p1out n) = [] := by
  have hp2 := preWaterPlant_alarmed_p2 pl samples fuel s h
  refine ⟨hp2, ?_, ?_, alarmRun_no_p2 _ n⟩
  · rw [hp2]
    exact setBits_absorb s.p2out pl.activateSolenoid BIT3
  · rw [hp2]
    exact setBits_setBits (setBits s.p2out pl.activateSolenoid) BIT3

/-- Witness for C10 at a concrete alarmed run: plant 1, a stream that goes
wet from the 5th conversion on, fuel 10, cleared ports, 5 blink periods. -/
theorem C10_alarm_valves_stay_open_witness :
    (preWaterPlant plant1 wetFromStep5 10 ⟨0, 0, 0⟩).sys.p2out =
      setBits (setBits 0 plant1.activateSolenoid) BIT3 ∧
    setBits (preWaterPlant plant1 wetFromStep5 10 ⟨0, 0, 0⟩).sys.p2out plant1.activateSolenoid =
      (preWaterPlant plant1 wetFromStep5 10 ⟨0, 0, 0⟩).sys.p2out ∧
    setBits (preWaterPlant plant1 wetFromStep5 10 ⟨0, 0, 0⟩).sys.p2out BIT3 =
      (preWaterPlant plant1 wetFromStep5 10 ⟨0, 0, 0⟩).sys.p2out ∧
    p2Writes (alarmRun (preWaterPlant plant1 wetFromStep5 10 ⟨0, 0, 0⟩).sys.p1out 5) = [] :=
  C10_alarm_valves_stay_open plant1 wetFromStep5 10 5 ⟨0, 0, 0⟩ (by decide)

/-- Counterexample to claim C4 as stated: the unconditional dose of a
never-calibrated station (`travelTime = 0`) is not zero-duration — the
single `waterPlant` routine always adds `SOAK_TIME`, so the trace holds a
3-tick dose delay and no 0-tick delay. -/
theorem C4_claim_false :
    plant1.travelTime = 0 ∧ waterTime plant1 = 3 ∧
    Event.delay (waterTime plant1) ∈ (waterPlant plant1 ⟨0, 0, 0⟩).1 ∧
    ¬ Event.delay plant1.travelTime ∈ (waterPlant plant1 ⟨0, 0, 0⟩).1 := by
  decide

/-- Claim C4 (corrected): the maintenance dose issued unconditionally at
the end of a station's processing runs for `travelTime + SOAK_TIME` ticks
(the same `waterPlant` routine as a full dose), so on the very first cycle
of a never-calibrated station it is a 3-tick dose, not a zero-duration
one. -/
theorem C4_maintenance_dose_has_soak (pl : plantProperty)
    (hpl : pl = plant1 ∨ pl = plant2 ∨ pl = plant3)
    (samples : Nat → Nat) (fuel k : Nat) (h : MOISTURE_MIN ≤ samples k) :
    (plantState pl samples fuel ⟨0, 0, k⟩).events.count
        (Event.delay (waterTime pl)) = 1 ∧
    waterTime pl = pl.travelTime + SOAK_TIME ∧ pl.travelTime = 0 ∧ waterTime pl = 3 ∧
    (plantState pl samples fuel ⟨0, 0, k⟩).events.count (Event.delay 0) = 0 := by
  rw [plantState_wet pl hpl samples fuel k h]
  dsimp only
  rcases hpl with rfl | rfl | rfl <;> decide

/-- Witness for C4 at a concrete wet run of plant 1. -/
theorem C4_maintenance_dose_has_soak_witness :
    (plantState plant1 (fun _ => 400) 0 ⟨0, 0, 0⟩).events.count
        (Event.delay (waterTime plant1)) = 1 ∧
    waterTime plant1 = plant1.travelTime + SOAK_TIME ∧ plant1.travelTime = 0 ∧
    waterTime plant1 = 3 ∧
    (plantState plant1 (fun _ => 400) 0 ⟨0, 0, 0⟩).events.count (Event.delay 0) = 0 :=
  C4_maintenance_dose_has_soak plant1 (Or.inl rfl) (fun _ => 400) 0 0 (by decide)

/-- Counterexample to claim C6 as stated: on the wet path of a
never-calibrated station the single dose is not issued at the pre-existing
`travelTime` (= 0): the trace holds no `travelTime`-tick delay, and the
dose delay is `travelTime + SOAK_TIME`. -/
theorem C6_claim_false :
    (plantState plant1 (fun _ => 400) 0 ⟨0, 0, 0⟩).events.count
        (Event.delay plant1.travelTime) = 0 ∧
    (plantState plant1 (fun _ => 400) 0 ⟨0, 0, 0⟩).events.count
        (Event.delay (plant1.travelTime + SOAK_TIME)) = 1 := by
  decide

/-- Claim C6 (corrected): for a station whose initial sample is not below
`MOISTURE_MIN`, `plantState` performs no calibration (the whole trace is
sensor power-up, one `waterPlant` dose, sensor power-down, returning
normally with the record unchanged), the shared valve opens exactly once,
and that single maintenance dose runs `travelTime + SOAK_TIME` ticks —
not the bare pre-existing `travelTime`. -/
theorem C6_wet_path_single_dose (pl : plantProperty)
    (hpl : pl = plant1 ∨ pl = plant2 ∨ pl = plant3)
    (samples : Nat → Nat) (fuel k : Nat) (h : MOISTURE_MIN ≤ samples k) :
    plantState pl samples fuel ⟨0, 0, k⟩ = ⟨wetEvents pl, ⟨0, 0, k + 1⟩, pl, Outcome.ok⟩ ∧
    (p2Writes (wetEvents pl)).countP (fun v => v.testBit 3) = 1 ∧
    (wetEvents pl).count (Event.delay (pl.travelTime + SOAK_TIME)) = 1 ∧
    (wetEvents pl).count (Event.delay pl.travelTime) = 0 := by
  refine ⟨plantState_wet pl hpl samples fuel k h, ?_, ?_, ?_⟩ <;>
    rcases hpl with rfl | rfl | rfl <;> decide

/-- Witness for C6 at a concrete wet run of plant 1. -/
theorem C6_wet_path_single_dose_witness :
    plantState plant1 (fun _ => 400) 0 ⟨0, 0, 0⟩ =
      ⟨wetEvents plant1, ⟨0, 0, 0 + 1⟩, plant1, Outcome.ok⟩ ∧
    (p2Writes (wetEvents plant1)).countP (fun v => v.testBit 3) = 1 ∧
    (wetEvents plant1).count (Event.delay (plant1.travelTime + SOAK_TIME)) = 1 ∧
    (wetEvents plant1).count (Event.delay plant1.travelTime) = 0 :=
  C6_wet_path_single_dose plant1 (Or.inl rfl) (fun _ => 400) 0 0 (by decide)

/-- Counterexample to claim C7 as stated: during each dose of the full
three-station cycle the shared-line valve and the active station's valve
are open at the same instant, so it is false that at most one valve
(counting the shared-line valve) is open at every instant. -/
theorem C7_claim_false :
    ((p2States 0 (iterTrace (fun _ => 400) 0 0)).all
        (fun v => decide (openValveCount v ≤ 1))) = false := by
  decide

/-- Claim C7 (corrected): across every iteration of the full three-station
cycle, at most one of the three per-station valves is open at any instant;
the shared-line valve is additionally open together with the active
station's valve while a dose flows, so the mutual exclusion holds for the
station valves only. -/
theorem C7_station_valve_exclusion (samples : Nat → Nat) (fuel n : Nat)
    (h : ∀ j, MOISTURE_MIN ≤ samples j) :
    ((p2States 0 (iterTrace samples fuel n)).all
        (fun v => decide (stationValveCount v ≤ 1))) = true := by
  rw [iterTrace_wet samples fuel h n]
  decide

/-- Witness for C7 on a concrete all-wet cycle. -/
theorem C7_station_valve_exclusion_witness :
    ((p2States 0 (iterTrace (fun _ => 400) 0 0)).all
        (fun v => decide (stationValveCount v ≤ 1))) = true :=
  C7_station_valve_exclusion (fun _ => 400) 0 0 (fun _ => (by decide : MOISTURE_MIN ≤ 400))

/-- Claim C8 (confirmed): in every iteration of the outer loop (under
streams whose samples keep every station on the completing wet path), the
trace is station 1's processing, then station 2's, then station 3's, then
exactly one 48-hour sleep (`hdelay 48` = 48 one-hour delays); each
station's segment ends with all valves closed and never touches the other
stations' valve bits, and no sleep delay occurs before the final block. -/
theorem C8_cycle_structure (samples : Nat → Nat) (fuel n : Nat)
    (h : ∀ j, MOISTURE_MIN ≤ samples j) :
    iterTrace samples fuel n =
      wetEvents plant1 ++ wetEvents plant2 ++ wetEvents plant3 ++ hdelayEvents 48 ∧
    p2After 0 (wetEvents plant1) = 0 ∧ p2After 0 (wetEvents plant2) = 0 ∧
    p2After 0 (wetEvents plant3) = 0 ∧
    ((p2Writes (wetEvents plant1)).all (fun v => decide (v &&& (BIT1 ||| BIT2) = 0))) = true ∧
    ((p2Writes (wetEvents plant2)).all (fun v => decide (v &&& (BIT0 ||| BIT2) = 0))) = true ∧
    ((p2Writes (wetEvents plant3)).all (fun v => decide (v &&& (BIT0 ||| BIT1) = 0))) = true ∧
    (wetEvents plant1 ++ wetEvents plant2 ++ wetEvents plant3).count (Event.delay 3600) = 0 ∧
    hdelayEvents 48 = List.replicate 48 (Event.delay 3600) := by
  refine ⟨iterTrace_wet samples fuel h n, ?_⟩
  decide

/-- Witness for C8 on a concrete all-wet cycle. -/
theorem C8_cycle_structure_witness :
    iterTrace (fun _ => 400) 0 0 =
      wetEvents plant1 ++ wetEvents plant2 ++ wetEvents plant3 ++ hdelayEvents 48 ∧
    p2After 0 (wetEvents plant1) = 0 ∧ p2After 0 (wetEvents plant2) = 0 ∧
    p2After 0 (wetEvents plant3) = 0 ∧
    ((p2Writes (wetEvents plant1)).all (fun v => decide (v &&& (BIT1 ||| BIT2) = 0))) = true ∧
    ((p2Writes (wetEvents plant2)).all (fun v => decide (v &&& (BIT0 ||| BIT2) = 0))) = true ∧
    ((p2Writes (wetEvents plant3)).all (fun v => decide (v &&& (BIT0 ||| BIT1) = 0))) = true ∧
    (wetEvents plant1 ++ wetEvents plant2 ++ wetEvents plant3).count (Event.delay 3600) = 0 ∧
    hdelayEvents 48 = List.replicate 48 (Event.delay 3600) :=
  C8_cycle_structure (fun _ => 400) 0 0 (fun _ => (by decide : MOISTURE_MIN ≤ 400))

end AutoPlantWatering
